import Mathlib

/-
Verification development for the arxiv-paper-downloader repository.

The definitions below are shallow embeddings of the Python source:
  - models.py      : Paper validation, DownloadStats
  - utils.py       : sanitize_filename, clean_text, validate_url,
                     is_valid_date_format, generate_unique_filename
  - arxiv_downloader.py : retry loop, response parsing, download_pdf,
                     download_papers, date-range query building
  - cache.py       : CacheManager search/paper caches
  - enhanced_arxiv_api.py : parameter validation, arXiv id regex, DateRange
  - plugins.py     : DuplicateCheckPlugin

Machine "floats" that only ever hold exact sums/divisions are modelled as
rationals; the file system is modelled as the list of existing file names;
exceptions are modelled with Except/Option.  Each theorem corresponds to one
claim about the code and is stated over these embeddings.
-/

/-! ## Python character / string helpers -/

/-- Python regex `\s` over the ASCII range: space, tab, newline, carriage
return, vertical tab, form feed. -/
def isPyWs (c : Char) : Bool :=
  c = ' ' || c = '\t' || c = '\n' || c = '\r' || c = '\x0b' || c = '\x0c'

/-- ASCII decimal digit, the characters matched by `\d` on arXiv ids. -/
def isAsciiDigit (c : Char) : Bool :=
  '0' ≤ c && c ≤ '9'

/-- Python `str.split(sep)` for a one-character separator: keeps empty
segments, and splitting the empty string yields one empty segment. -/
def pySplitChar (sep : Char) : List Char → List (List Char)
  | [] => [[]]
  | c :: rest =>
    let r := pySplitChar sep rest
    if c = sep then [] :: r
    else (c :: r.headD []) :: r.tail

/-- Python `str.startswith(pre)` on character lists. -/
def listStartsWith : List Char → List Char → Bool
  | _, [] => true
  | [], _ :: _ => false
  | c :: cs, p :: ps => c = p && listStartsWith cs ps

/-- Python `str.startswith(pre)`. -/
def pyStartsWith (s pre : String) : Bool :=
  listStartsWith s.data pre.data

/-! ## utils.validate_url

Python source (utils.py):
    pattern = r'^https?://[^\s/$.?#].[^\s]*$'
    return bool(re.match(pattern, url, re.IGNORECASE))
preceded by `if not url: return False`.
-/

/-- Tail of the URL regex after the first two post-scheme characters:
`[^\s]*$`, where Python's `$` also matches just before one trailing
newline. -/
def nonWsRun : List Char → Bool
  | [] => true
  | ['\n'] => true
  | c :: rest => !(isPyWs c) && nonWsRun rest

/-- The part of the `validate_url` regex after `https?`:
`://[^\s/$.?#].[^\s]*$`.  The single `.` matches any character except a
newline. -/
def urlAfterScheme : List Char → Bool
  | ':' :: '/' :: '/' :: c1 :: c2 :: rest =>
    !(isPyWs c1) && !(c1 = '/') && !(c1 = '$') && !(c1 = '.') &&
      !(c1 = '?') && !(c1 = '#') && !(c2 = '\n') && nonWsRun rest
  | _ => false

/-- Embedding of `utils.validate_url`.  The scheme letters are matched
case-insensitively (`re.IGNORECASE`); the optional `s` cannot backtrack
because `:` differs from `s`. -/
def validate_url (url : String) : Bool :=
  match url.data with
  | h1 :: h2 :: h3 :: h4 :: rest =>
    if h1.toLower = 'h' && h2.toLower = 't' && h3.toLower = 't' && h4.toLower = 'p' then
      match rest with
      | c :: rest2 => if c.toLower = 's' then urlAfterScheme rest2 else urlAfterScheme rest
      | [] => false
    else false
  | _ => false

/-! ## utils.clean_text and utils.sanitize_filename -/

/-- One pass of `re.sub(r'\s+', ' ', ·)`: the flag records whether the
previous character was part of a whitespace run already replaced. -/
def collapseWsAux : Bool → List Char → List Char
  | _, [] => []
  | prevWs, c :: rest =>
    if isPyWs c then
      if prevWs then collapseWsAux true rest
      else ' ' :: collapseWsAux true rest
    else c :: collapseWsAux false rest

/-- `re.sub(r'\s+', ' ', ·)`: every maximal whitespace run becomes one
space. -/
def collapseWs (cs : List Char) : List Char :=
  collapseWsAux false cs

/-- Python `str.strip()` restricted to ASCII whitespace. -/
def pyStripList (cs : List Char) : List Char :=
  ((cs.dropWhile isPyWs).reverse.dropWhile isPyWs).reverse

/-- Python `str.rstrip()` restricted to ASCII whitespace. -/
def pyRstripList (cs : List Char) : List Char :=
  (cs.reverse.dropWhile isPyWs).reverse

/-- Embedding of `utils.clean_text`: newlines and carriage returns become
spaces, whitespace runs collapse to one space, ends are stripped. -/
def clean_text (s : String) : String :=
  ⟨pyStripList (collapseWs (s.data.map fun c => if c = '\n' || c = '\r' then ' ' else c))⟩

/-- The characters removed by `Config.INVALID_CHARS_PATTERN`
(`[<>:"/\\|?*]`). -/
def isInvalidFilenameChar (c : Char) : Bool :=
  c = '<' || c = '>' || c = ':' || c = '"' || c = '/' || c = '\\' ||
    c = '|' || c = '?' || c = '*'

/-- Embedding of `utils.sanitize_filename`: drop illegal characters,
collapse whitespace, strip, truncate to `maxLength` (rstripping the cut),
and fall back to `"untitled"` when the result is empty.
`Config.MAX_FILENAME_LENGTH` is 100. -/
def sanitize_filename (title : String) (maxLength : Nat) : String :=
  let t1 := title.data.filter fun c => !(isInvalidFilenameChar c)
  let t2 := collapseWs t1
  let t3 := pyStripList t2
  let t4 := if t3.length > maxLength then pyRstripList (t3.take maxLength) else t3
  if t4 = [] then "untitled" else ⟨t4⟩

/-! ## utils.is_valid_date_format -/

/-- Embedding of `utils.is_valid_date_format`: the regex
`^\d{4}-\d{2}-\d{2}$` (with Python's `$` also matching before one trailing
newline, which a 10-character exact shape cannot hit, so the plain shape
suffices for 10-character strings; the general form checks the last
character). -/
def is_valid_date_format (s : String) : Bool :=
  match s.data with
  | [y1, y2, y3, y4, d1, m1, m2, d2, a1, a2] =>
    isAsciiDigit y1 && isAsciiDigit y2 && isAsciiDigit y3 && isAsciiDigit y4 &&
      d1 = '-' && isAsciiDigit m1 && isAsciiDigit m2 && d2 = '-' &&
      isAsciiDigit a1 && isAsciiDigit a2
  | [y1, y2, y3, y4, d1, m1, m2, d2, a1, a2, nl] =>
    isAsciiDigit y1 && isAsciiDigit y2 && isAsciiDigit y3 && isAsciiDigit y4 &&
      d1 = '-' && isAsciiDigit m1 && isAsciiDigit m2 && d2 = '-' &&
      isAsciiDigit a1 && isAsciiDigit a2 && nl = '\n'
  | _ => false

/-! ## utils.generate_unique_filename (utils.py 165-210) -/

/-- Python `filename.rsplit('.', 1)`: split at the last dot, `none` when
the name has no dot. -/
def rsplitDot (cs : List Char) : Option (List Char × List Char) :=
  match cs.reverse.span (fun c => !(c = '.')) with
  | (_, []) => none
  | (extRev, _ :: nameRev) => some (nameRev.reverse, extRev.reverse)

/-- Insert `_suffix` before the extension (after `rsplit('.', 1)`), or
append it when the filename has no extension. -/
def withSuffix (filename : String) (suffix : String) : String :=
  match rsplitDot filename.data with
  | some (name, ext) => String.mk name ++ "_" ++ suffix ++ "." ++ String.mk ext
  | none => filename ++ "_" ++ suffix

/-- The `while True` counter loop of `generate_unique_filename`, supplied
with enough fuel to cover every name in the directory plus one; the
Python loop always terminates because some candidate among the first
`fs.length + 1` is fresh. -/
def findFresh (fs : List String) (cand : Nat → String) : Nat → Nat → String
  | 0, counter => cand counter
  | fuel + 1, counter =>
    if fs.contains (cand counter) then findFresh fs cand fuel (counter + 1)
    else cand counter

/-- Embedding of `utils.generate_unique_filename` over a directory listing
`fs`: return `filename` if free, else `name_<paper_id>.ext` if `paper_id`
is truthy and that is free, else the first free `name_<counter>.ext` with
`counter` counting from 1. -/
def generate_unique_filename (fs : List String) (filename : String)
    (paper_id : Option String) : String :=
  if !(fs.contains filename) then filename
  else
    let numeric := findFresh fs (fun c => withSuffix filename (toString c)) (fs.length + 1) 1
    match paper_id with
    | some pid =>
      if pid = "" then numeric
      else
        let nf := withSuffix filename pid
        if !(fs.contains nf) then nf else numeric
    | none => numeric

/-! ## models.Paper construction (dynamic-typed view, models.py 39-51)

`Paper.__post_init__` validates a dataclass whose `authors` and
`categories` fields may dynamically hold a non-list value, so those two
inputs are modelled with a small Python-value type. -/

/-- A Python value that may or may not be a list, as passed for the
`authors` and `categories` fields. -/
inductive PyVal where
  | str (s : String)
  | list (xs : List String)
  | pyNone
deriving DecidableEq

/-- `isinstance(v, list)`. -/
def PyVal.isList : PyVal → Bool
  | .list _ => true
  | _ => false

/-- A constructed `Paper` record in the dynamic-typed view. -/
structure PyPaper where
  id : String
  title : String
  authors : PyVal
  abstract : String
  pdf_url : String
  published : String
  categories : PyVal
deriving DecidableEq

/-- Embedding of `Paper.__post_init__` (models.py 39-51): the checks run in
source order and the first failing check raises `ValidationError` with the
source's message. -/
def Paper.mkPy (id title : String) (authors : PyVal) (abstract pdf_url published : String)
    (categories : PyVal) : Except String PyPaper :=
  if id = "" || title = "" then
    .error "Paper ID and title cannot be empty"
  else if pdf_url = "" || !(pyStartsWith pdf_url "http") then
    .error "Invalid PDF URL"
  else if !(authors.isList) then
    .error "Author information must be in list format"
  else if !(categories.isList) then
    .error "Category information must be in list format"
  else
    .ok ⟨id, title, authors, abstract, pdf_url, published, categories⟩

/-! ## models.DownloadStats (models.py 70-114) -/

/-- Embedding of the `DownloadStats` dataclass; the two float fields only
ever hold exact sums and quotients, so they are modelled as rationals. -/
structure DownloadStats where
  total_papers : Nat
  successful_downloads : Nat
  failed_downloads : Nat
  skipped_downloads : Nat
  total_size_mb : ℚ
  download_time_seconds : ℚ
deriving DecidableEq

/-- A freshly constructed `DownloadStats()` (all fields zero). -/
def DownloadStats.init : DownloadStats := ⟨0, 0, 0, 0, 0, 0⟩

/-- `DownloadStats.success_rate` (models.py 80-85). -/
def DownloadStats.success_rate (s : DownloadStats) : ℚ :=
  if s.total_papers = 0 then 0
  else (s.successful_downloads : ℚ) / (s.total_papers : ℚ)

/-- `DownloadStats.average_speed_mbps` (models.py 87-92). -/
def DownloadStats.average_speed_mbps (s : DownloadStats) : ℚ :=
  if s.download_time_seconds = 0 then 0
  else s.total_size_mb / s.download_time_seconds

/-- `DownloadStats.add_success` (models.py 94-97). -/
def DownloadStats.add_success (s : DownloadStats) (file_size_mb : ℚ) : DownloadStats :=
  { s with successful_downloads := s.successful_downloads + 1,
           total_size_mb := s.total_size_mb + file_size_mb }

/-- `DownloadStats.add_failure` (models.py 99-101). -/
def DownloadStats.add_failure (s : DownloadStats) : DownloadStats :=
  { s with failed_downloads := s.failed_downloads + 1 }

/-- `DownloadStats.add_skip` (models.py 103-105). -/
def DownloadStats.add_skip (s : DownloadStats) : DownloadStats :=
  { s with skipped_downloads := s.skipped_downloads + 1 }

/-! ## Theorems for claim C10 -/

/-- C10: for every DownloadStats value, `success_rate` returns 0 when
`total_papers` is 0 and `successful_downloads / total_papers` otherwise,
and `average_speed_mbps` returns 0 when `download_time_seconds` is 0 and
`total_size_mb / download_time_seconds` otherwise, so neither derived
property divides by zero. -/
theorem C10_stats_guarded_division (s : DownloadStats) :
    (s.total_papers = 0 → s.success_rate = 0) ∧
    (s.total_papers ≠ 0 →
      s.success_rate = (s.successful_downloads : ℚ) / (s.total_papers : ℚ)) ∧
    (s.download_time_seconds = 0 → s.average_speed_mbps = 0) ∧
    (s.download_time_seconds ≠ 0 →
      s.average_speed_mbps = s.total_size_mb / s.download_time_seconds) := by
  refine ⟨fun h => ?_, fun h => ?_, fun h => ?_, fun h => ?_⟩ <;>
    simp [DownloadStats.success_rate, DownloadStats.average_speed_mbps, h]

/-- Witness for C10 at concrete statistics records: a batch of zero papers
has success rate 0, and a batch of 2 papers with 1 success over 3 seconds
and 6 MB has rate 1/2 and speed 2 MB/s. -/
theorem C10_stats_guarded_division_witness :
    DownloadStats.success_rate ⟨0, 0, 0, 0, 0, 0⟩ = 0 ∧
    DownloadStats.average_speed_mbps ⟨0, 0, 0, 0, 0, 0⟩ = 0 ∧
    DownloadStats.success_rate ⟨2, 1, 0, 1, 6, 3⟩ = 1 / 2 ∧
    DownloadStats.average_speed_mbps ⟨2, 1, 0, 1, 6, 3⟩ = 2 := by
  refine ⟨(C10_stats_guarded_division ⟨0, 0, 0, 0, 0, 0⟩).1 rfl,
          (C10_stats_guarded_division ⟨0, 0, 0, 0, 0, 0⟩).2.2.1 rfl,
          ?_, ?_⟩
  · rw [(C10_stats_guarded_division ⟨2, 1, 0, 1, 6, 3⟩).2.1 (by decide)]
    norm_num
  · rw [(C10_stats_guarded_division ⟨2, 1, 0, 1, 6, 3⟩).2.2.2 (by norm_num)]
    norm_num

/-! ## The download pipeline (arxiv_downloader.py 264-378)

The file system is the list of file names existing in the download
directory; the network and the byte sink are summarised by a per-paper
`FetchOutcome` telling how the fetch-and-write block would end.  Wall-clock
timing is not modelled, so `download_time_seconds` stays 0. -/

/-- The validated, typed `Paper` record produced by the parser and consumed
by the pipeline and plugins. -/
structure Paper where
  id : String
  title : String
  authors : List String
  abstract : String
  pdf_url : String
  published : Option String
  categories : List String
deriving DecidableEq

/-- The exception raised out of the fetch-and-write block of
`download_pdf`: `NetworkError` (raised by `_download_with_retry`),
`FileOperationError` (defined in models.py but raised nowhere), a builtin
`OSError` (permission denied, disk full during `open`/`write`), or a
`requests.RequestException` escaping `iter_content`. -/
inductive PyExn where
  | networkError
  | fileOperationError
  | osError
  | requestException
deriving DecidableEq

/-- The exception classes named by the `except` clause of `download_pdf`
(arxiv_downloader.py 303): `(NetworkError, FileOperationError)`. -/
def caughtByDownloadPdf : PyExn → Bool
  | .networkError => true
  | .fileOperationError => true
  | _ => false

/-- How the fetch-and-write block of one `download_pdf` call ends: complete
success with the written size in MB, or an exception with a flag telling
whether a partial file was already on disk when it was raised. -/
inductive FetchOutcome where
  | success (sizeMb : ℚ)
  | fail (e : PyExn) (partialWritten : Bool)
deriving DecidableEq

/-- Embedding of `ArxivDownloader.download_pdf` (arxiv_downloader.py
264-314).  Returns the new directory listing, the new statistics, and
`.ok b` for a normal return of `b` or `.error e` for an escaping
exception. -/
def download_pdf (fs : List String) (stats : DownloadStats) (p : Paper)
    (outcome : FetchOutcome) : List String × DownloadStats × Except PyExn Bool :=
  let clean_title := sanitize_filename p.title 100
  let filename := clean_title ++ ".pdf"
  let filepath := generate_unique_filename fs filename (some p.id)
  if fs.contains filepath then
    (fs, stats.add_skip, .ok true)
  else
    match outcome with
    | .success sizeMb => (filepath :: fs, stats.add_success sizeMb, .ok true)
    | .fail e partialWritten =>
      let fs1 := if partialWritten then filepath :: fs else fs
      if caughtByDownloadPdf e then
        (fs1.erase filepath, stats.add_failure, .ok false)
      else
        (fs1, stats, .error e)

/-- The per-paper loop of `ArxivDownloader.download_papers`: an exception
escaping `download_pdf` propagates and the remaining papers are not
processed. -/
def downloadLoop (fs : List String) (stats : DownloadStats) :
    List (Paper × FetchOutcome) → List String × DownloadStats × Option PyExn
  | [] => (fs, stats, none)
  | (p, o) :: rest =>
    match download_pdf fs stats p o with
    | (fs2, stats2, .ok _) => downloadLoop fs2 stats2 rest
    | (fs2, stats2, .error e) => (fs2, stats2, some e)

/-- Embedding of `ArxivDownloader.download_papers` (arxiv_downloader.py
345-378): an empty batch returns immediately keeping the old statistics;
otherwise the statistics are reset, `total_papers` is set, and the papers
are processed in order. -/
def download_papers (fs : List String) (stats0 : DownloadStats)
    (papers : List (Paper × FetchOutcome)) :
    List String × DownloadStats × Option PyExn :=
  if papers.isEmpty then (fs, stats0, none)
  else
    downloadLoop fs
      { DownloadStats.init with total_papers := papers.length } papers

/-- A concrete well-formed paper used to exercise the pipeline. -/
def paperA : Paper :=
  ⟨"2301.00001v1", "Attention Is All You Need", ["A. Vaswani"],
    "An abstract.", "http://arxiv.org/pdf/2301.00001v1", some "2023-01-01T00:00:00Z",
    ["cs.AI"]⟩

/-! ## Theorems for claim C1 -/

/-- C1 (failing input): running `download_papers` on `[paperA]` twice
against an unchanged directory does NOT skip the second run.
`generate_unique_filename` only ever returns a path that does not exist,
so the `if filepath.exists()` skip branch of `download_pdf` is dead: the
second run derives the disambiguated fresh path
`Attention Is All You Need_2301.00001v1.pdf`, downloads the PDF again, and
ends with two files on disk, `skipped_downloads = 0`, and
`successful_downloads = 1`, where the claim requires one file and a skip. -/
theorem C1_second_run_downloads_again :
    (download_papers
      (download_papers [] DownloadStats.init [(paperA, .success 1)]).1
      DownloadStats.init [(paperA, .success 1)]).1 =
        ["Attention Is All You Need_2301.00001v1.pdf",
         "Attention Is All You Need.pdf"] ∧
    (download_papers
      (download_papers [] DownloadStats.init [(paperA, .success 1)]).1
      DownloadStats.init [(paperA, .success 1)]).2.1.skipped_downloads = 0 ∧
    (download_papers
      (download_papers [] DownloadStats.init [(paperA, .success 1)]).1
      DownloadStats.init [(paperA, .success 1)]).2.1.successful_downloads = 1 := by
  decide

/-! ## Theorems for claim C2 -/

/-- A second concrete paper for batch runs. -/
def paperB : Paper :=
  ⟨"2302.00002", "Beta Paper", ["B. Author"], "Second abstract.",
    "http://arxiv.org/pdf/2302.00002", some "2023-02-01T00:00:00Z", ["cs.LG"]⟩

/-- C2 (failing input): in a batch of two papers where the first write
raises a builtin `OSError` (permission denied / disk full) after a partial
file was written, the exception is NOT caught by the
`except (NetworkError, FileOperationError)` clause of `download_pdf`: it
propagates, the partial file `Attention Is All You Need.pdf` stays on
disk, `failed_downloads` stays 0, and the second paper is never
processed — where the claim requires cleanup, a failure count of 1, and
the batch to continue. -/
theorem C2_os_error_aborts_batch :
    download_papers [] DownloadStats.init
        [(paperA, .fail .osError true), (paperB, .success 1)] =
      (["Attention Is All You Need.pdf"],
        { DownloadStats.init with total_papers := 2 },
        some .osError) := by
  decide

/-! ## The retry loop (arxiv_downloader.py 125-154 and 316-343)

`_make_request_with_retry` and `_download_with_retry` are the same
algorithm (the latter only adds `stream=True` to the request), so one
embedding covers both.  The attempt outcomes are summarised by a function
from the attempt index to either a response or the message of the raised
`requests.RequestException`; the returned list holds the back-off sleeps
in order. -/

/-- The `NetworkError` raised by the retry loop: either wrapping the last
underlying error after the final attempt, or the unreachable trailing
raise (hit only when `max_retries = 0`). -/
inductive RetryErr where
  | afterRetries (last : String)
  | exhausted
deriving DecidableEq

/-- The body of `for attempt in range(max_retries)`, with `fuel` the number
of loop iterations still available (initially `maxRetries`, so
`attempt + fuel = maxRetries` throughout). -/
def retryAux {α : Type} (outcome : Nat → Except String α) (maxRetries : Nat)
    (base : ℚ) : Nat → Nat → Except RetryErr α × List ℚ
  | 0, _ => (.error .exhausted, [])
  | fuel + 1, attempt =>
    match outcome attempt with
    | .ok r => (.ok r, [])
    | .error e =>
      if attempt = maxRetries - 1 then (.error (.afterRetries e), [])
      else
        let rest := retryAux outcome maxRetries base fuel (attempt + 1)
        (rest.1, base ^ attempt :: rest.2)

/-- Embedding of `ArxivDownloader._make_request_with_retry` (and of
`_download_with_retry`): run the attempt loop from attempt 0. -/
def make_request_with_retry {α : Type} (outcome : Nat → Except String α)
    (maxRetries : Nat) (base : ℚ) : Except RetryErr α × List ℚ :=
  retryAux outcome maxRetries base maxRetries 0

theorem retryAux_success {α : Type} (outcome : Nat → Except String α)
    (maxRetries : Nat) (base : ℚ) (k : Nat) (r : α) (hk : k < maxRetries)
    (hfail : ∀ j, j < k → ∃ e, outcome j = .error e)
    (hok : outcome k = .ok r) :
    ∀ fuel attempt, attempt + fuel = maxRetries → attempt ≤ k →
      retryAux outcome maxRetries base fuel attempt =
        (.ok r, (List.range' attempt (k - attempt)).map fun i => base ^ i) := by
  intro fuel
  induction fuel with
  | zero =>
    intro attempt hsum hle
    omega
  | succ n ih =>
    intro attempt hsum hle
    rcases eq_or_lt_of_le hle with heq | hlt
    · subst heq
      simp [retryAux, hok]
    · obtain ⟨e, he⟩ := hfail attempt hlt
      have hne : attempt ≠ maxRetries - 1 := by omega
      have hrec := ih (attempt + 1) (by omega) (by omega)
      simp only [retryAux, he, hne, if_false]
      rw [hrec]
      have hlen : k - attempt = (k - (attempt + 1)) + 1 := by omega
      rw [hlen, List.range'_succ]
      simp

theorem retryAux_all_fail {α : Type} (outcome : Nat → Except String α)
    (maxRetries : Nat) (base : ℚ) (errOf : Nat → String)
    (hfail : ∀ j, j < maxRetries → outcome j = .error (errOf j)) :
    ∀ fuel attempt, attempt + fuel = maxRetries → attempt < maxRetries →
      retryAux outcome maxRetries base fuel attempt =
        (.error (.afterRetries (errOf (maxRetries - 1))),
          (List.range' attempt (maxRetries - 1 - attempt)).map fun i => base ^ i) := by
  intro fuel
  induction fuel with
  | zero =>
    intro attempt hsum hlt
    omega
  | succ n ih =>
    intro attempt hsum hlt
    have he := hfail attempt hlt
    by_cases hlast : attempt = maxRetries - 1
    · subst hlast
      simp [retryAux, he]
    · have hrec := ih (attempt + 1) (by omega) (by omega)
      simp only [retryAux, he, hlast, if_false]
      rw [hrec]
      have hlen : maxRetries - 1 - attempt = (maxRetries - 1 - (attempt + 1)) + 1 := by omega
      rw [hlen, List.range'_succ]
      simp

theorem retryAux_local {α : Type} (outcome outcome' : Nat → Except String α)
    (maxRetries : Nat) (base : ℚ)
    (hagree : ∀ j, j < maxRetries → outcome j = outcome' j) :
    ∀ fuel attempt, attempt + fuel = maxRetries →
      retryAux outcome maxRetries base fuel attempt =
        retryAux outcome' maxRetries base fuel attempt := by
  intro fuel
  induction fuel with
  | zero => intro attempt _; simp [retryAux]
  | succ n ih =>
    intro attempt hsum
    have hlt : attempt < maxRetries := by omega
    have hrec := ih (attempt + 1) (by omega)
    simp only [retryAux, hagree attempt hlt]
    cases outcome' attempt with
    | ok r => simp
    | error e =>
      by_cases hlast : attempt = maxRetries - 1
      · simp [hlast]
      · simp [hlast, hrec]

/-! ## Theorems for claim C3 -/

/-- C3: the retry loop makes at most `maxRetries` attempts (its result
depends only on the first `maxRetries` attempt outcomes); when the first
`k < maxRetries` attempts fail and attempt `k` succeeds it returns the
successful response after sleeping `base ^ i` seconds after each failed
attempt `i < k`; and when all `maxRetries` attempts fail (`maxRetries ≥ 1`)
it raises a `NetworkError` carrying the last underlying error, after
`maxRetries - 1` back-off sleeps. -/
theorem C3_make_request_with_retry {α : Type} (outcome outcome' : Nat → Except String α)
    (maxRetries : Nat) (base : ℚ) (k : Nat) (r : α) (errOf : Nat → String) :
    (k < maxRetries → (∀ j, j < k → ∃ e, outcome j = .error e) →
      outcome k = .ok r →
      make_request_with_retry outcome maxRetries base =
        (.ok r, (List.range k).map fun i => base ^ i)) ∧
    (1 ≤ maxRetries → (∀ j, j < maxRetries → outcome j = .error (errOf j)) →
      make_request_with_retry outcome maxRetries base =
        (.error (.afterRetries (errOf (maxRetries - 1))),
          (List.range (maxRetries - 1)).map fun i => base ^ i)) ∧
    ((∀ j, j < maxRetries → outcome j = outcome' j) →
      make_request_with_retry outcome maxRetries base =
        make_request_with_retry outcome' maxRetries base) := by
  refine ⟨fun hk hfail hok => ?_, fun hpos hfail => ?_, fun hagree => ?_⟩
  · rw [make_request_with_retry,
      retryAux_success outcome maxRetries base k r hk hfail hok maxRetries 0
        (by omega) (by omega)]
    simp [List.range_eq_range']
  · rw [make_request_with_retry,
      retryAux_all_fail outcome maxRetries base errOf hfail maxRetries 0
        (by omega) (by omega)]
    simp [List.range_eq_range']
  · exact retryAux_local outcome outcome' maxRetries base hagree maxRetries 0 (by omega)

/-- Witness for C3, the spec's Scenario C: against an endpoint failing on
attempts 0 and 1 and succeeding on attempt 2, with `max_retries = 3` and
base 2, the loop returns the successful response with exactly the two
back-off sleeps `[2 ^ 0, 2 ^ 1] = [1, 2]`. -/
theorem C3_make_request_with_retry_witness :
    make_request_with_retry
        (fun i => if i < 2 then Except.error "connection reset" else Except.ok "response")
        3 2 =
      (.ok "response", [1, 2]) := by
  have h := (C3_make_request_with_retry
    (fun i => if i < 2 then Except.error "connection reset" else Except.ok "response")
    (fun i => if i < 2 then Except.error "connection reset" else Except.ok "response")
    3 2 2 "response" (fun _ => "")).1
    (by omega)
    (fun j hj => ⟨"connection reset", by simp [hj]⟩)
    (by simp)
  rw [h]
  norm_num [List.range_succ]

/-! ## The Atom response parser (arxiv_downloader.py 156-262)

An `entry` element is summarised by the values ElementTree hands the
parser: for a child element, `none` means `find` returned no element and
`some t` means the element exists with text `t` (where `t : Option String`
is `none` when the element is empty, i.e. Python `elem.text is None`). -/

/-- One Atom `entry` element as seen by `_parse_paper_entry`. -/
structure Entry where
  idElem : Option (Option String)
  titleElem : Option (Option String)
  authorNames : List (Option (Option String))
  summaryElem : Option (Option String)
  links : List (Option String × Option String)
  publishedElem : Option (Option String)
  categoryTerms : List (Option String)
deriving DecidableEq

/-- The dictionary `_parse_paper_entry` builds before `Paper(**...)`. -/
structure PaperData where
  id : String
  title : String
  authors : List String
  abstract : String
  pdf_url : String
  published : Option String
  categories : List String
deriving DecidableEq

/-- Result of `_parse_paper_entry`: the built dictionary, the `None`
return, or an exception escaping the extraction (an `AttributeError` from
calling a string method on `None`, which the caller's
`except (ValidationError, KeyError)` does not catch). -/
inductive EntryParse where
  | data (pd : PaperData)
  | noData
  | raises
deriving DecidableEq

/-- Python `str.strip()`. -/
def pyStrip (s : String) : String :=
  ⟨pyStripList s.data⟩

/-- The author loop of `_parse_paper_entry`: an `<author>` without a
`<name>` child is skipped; a `<name>` child with no text raises
(`None.strip()`). -/
def parseAuthors : List (Option (Option String)) → Except Unit (List String)
  | [] => .ok []
  | none :: rest => parseAuthors rest
  | some none :: _ => .error ()
  | some (some n) :: rest => (parseAuthors rest).map fun l => pyStrip n :: l

/-- The link loop of `_parse_paper_entry`: take the `href` of the first
link whose `type` attribute equals `application/pdf` (the loop breaks
there even when that link has no `href`). -/
def findPdfUrl : List (Option String × Option String) → Option String
  | [] => none
  | (ty, href) :: rest =>
    if ty = some "application/pdf" then href else findPdfUrl rest

/-- The tail of `_parse_paper_entry` from the PDF-link check on:
drop the entry when no pdf link was found, its href is missing or empty, or
`validate_url` rejects it; otherwise collect `published` (the raw text,
possibly Python `None`; the empty string when the element is absent) and
the truthy `term` attributes, and return the data dictionary. -/
def parseRest (e : Entry) (pid title : String) (authors : List String)
    (abstract : String) : EntryParse :=
  match findPdfUrl e.links with
  | none => .noData
  | some href =>
    if href = "" then .noData
    else if !(validate_url href) then .noData
    else
      let published : Option String :=
        match e.publishedElem with
        | none => some ""
        | some t => t
      let cats := e.categoryTerms.filterMap fun t =>
        match t with
        | some s => if s = "" then none else some s
        | none => none
      .data ⟨pid, title, authors, abstract, href, published, cats⟩

/-- Embedding of `ArxivDownloader._parse_paper_entry` (arxiv_downloader.py
197-262), with the source's order of checks: id, title, authors, summary,
pdf link, published, categories. -/
def parse_paper_entry (e : Entry) : EntryParse :=
  match e.idElem with
  | none => .noData
  | some none => .raises
  | some (some idText) =>
    let pid := String.mk ((pySplitChar '/' idText.data).getLastD [])
    match e.titleElem with
    | none => .noData
    | some none => .raises
    | some (some titleText) =>
      match parseAuthors e.authorNames with
      | .error _ => .raises
      | .ok authors =>
        match e.summaryElem with
        | some none => .raises
        | some (some sumText) =>
          parseRest e pid (clean_text titleText) authors (clean_text sumText)
        | none => parseRest e pid (clean_text titleText) authors ""

/-- `Paper(**paper_data)` on the dictionary the parser builds: the
`authors`/`categories` values are genuine lists there, so only the
id/title/pdf_url checks of `__post_init__` can fire. -/
def Paper.fromData (pd : PaperData) : Except String Paper :=
  if pd.id = "" || pd.title = "" then
    .error "Paper ID and title cannot be empty"
  else if pd.pdf_url = "" || !(pyStartsWith pd.pdf_url "http") then
    .error "Invalid PDF URL"
  else
    .ok ⟨pd.id, pd.title, pd.authors, pd.abstract, pd.pdf_url, pd.published, pd.categories⟩

/-- An XML payload: structurally invalid, or a well-formed feed with its
top-level `entry` elements in document order. -/
inductive XmlDoc where
  | malformed
  | wellFormed (entries : List Entry)

/-- What `_parse_arxiv_response` can raise: `ParseError` for a malformed
document, or the uncaught per-entry `AttributeError`. -/
inductive ParseExn where
  | parseError
  | uncaughtAttributeError
deriving DecidableEq

/-- The entry loop of `_parse_arxiv_response`: a `ValidationError` from
`Paper(**paper_data)` (and a `KeyError`, which cannot actually occur) is
caught and the entry skipped; an `AttributeError` propagates. -/
def parseEntriesLoop : List Entry → Except ParseExn (List Paper)
  | [] => .ok []
  | e :: rest =>
    match parse_paper_entry e with
    | .raises => .error .uncaughtAttributeError
    | .noData => parseEntriesLoop rest
    | .data pd =>
      match Paper.fromData pd with
      | .error _ => parseEntriesLoop rest
      | .ok p => (parseEntriesLoop rest).map fun l => p :: l

/-- Embedding of `ArxivDownloader._parse_arxiv_response` (arxiv_downloader.py
156-195). -/
def parse_arxiv_response : XmlDoc → Except ParseExn (List Paper)
  | .malformed => .error .parseError
  | .wellFormed entries => parseEntriesLoop entries

/-- The fate of a single entry: the Paper it contributes, or `none` when it
is excluded (no data, or a caught `ValidationError`). -/
def entryResult (e : Entry) : Option Paper :=
  match parse_paper_entry e with
  | .data pd =>
    match Paper.fromData pd with
    | .ok p => some p
    | .error _ => none
  | _ => none

theorem parseRest_data_pdf (e : Entry) (pid title : String) (authors : List String)
    (abstract : String) (pd : PaperData)
    (h : parseRest e pid title authors abstract = .data pd) :
    findPdfUrl e.links = some pd.pdf_url ∧ validate_url pd.pdf_url = true := by
  unfold parseRest at h
  split at h
  · exact absurd h (by simp)
  next href heq =>
    split at h
    · exact absurd h (by simp)
    · split at h
      · exact absurd h (by simp)
      next hval =>
        cases h
        refine ⟨heq, ?_⟩
        simpa using hval

theorem parse_paper_entry_data (e : Entry) (pd : PaperData)
    (h : parse_paper_entry e = .data pd) :
    ∃ pid title authors abstract,
      parseRest e pid title authors abstract = .data pd := by
  unfold parse_paper_entry at h
  cases hid : e.idElem with
  | none => rw [hid] at h; exact absurd h (by simp)
  | some idT =>
    rw [hid] at h
    cases idT with
    | none => exact absurd h (by simp)
    | some idText =>
      cases hti : e.titleElem with
      | none => rw [hti] at h; exact absurd h (by simp)
      | some tiT =>
        rw [hti] at h
        cases tiT with
        | none => exact absurd h (by simp)
        | some titleText =>
          cases hau : parseAuthors e.authorNames with
          | error u => rw [hau] at h; exact absurd h (by simp)
          | ok authors =>
            rw [hau] at h
            cases hsu : e.summaryElem with
            | none =>
              rw [hsu] at h
              exact ⟨_, _, _, _, h⟩
            | some suT =>
              rw [hsu] at h
              cases suT with
              | none => exact absurd h (by simp)
              | some sumText => exact ⟨_, _, _, _, h⟩

theorem entryResult_none_of_no_valid_pdf (e : Entry)
    (hpdf : ∀ h, findPdfUrl e.links = some h → validate_url h = false) :
    entryResult e = none := by
  unfold entryResult
  cases hp : parse_paper_entry e with
  | noData => simp
  | raises => simp
  | data pd =>
    obtain ⟨pid, title, authors, abstract, hrest⟩ := parse_paper_entry_data e pd hp
    obtain ⟨hfind, hval⟩ := parseRest_data_pdf e pid title authors abstract pd hrest
    rw [hpdf pd.pdf_url hfind] at hval
    cases hval

theorem parseEntriesLoop_filterMap (entries : List Entry)
    (hok : ∀ e ∈ entries, parse_paper_entry e ≠ .raises) :
    parseEntriesLoop entries = .ok (entries.filterMap entryResult) := by
  induction entries with
  | nil => rfl
  | cons e rest ih =>
    have hrest := ih fun x hx => hok x (List.mem_cons_of_mem e hx)
    have he := hok e (List.mem_cons_self e rest)
    cases hp : parse_paper_entry e with
    | raises => exact absurd hp he
    | noData =>
      have hres : entryResult e = none := by simp [entryResult, hp]
      simp only [parseEntriesLoop, hp, List.filterMap_cons, hres]
      exact hrest
    | data pd =>
      cases hfd : Paper.fromData pd with
      | error msg =>
        have hres : entryResult e = none := by simp [entryResult, hp, hfd]
        simp only [parseEntriesLoop, hp, hfd, List.filterMap_cons, hres]
        exact hrest
      | ok p =>
        have hres : entryResult e = some p := by simp [entryResult, hp, hfd]
        simp only [parseEntriesLoop, hp, hfd, List.filterMap_cons, hres]
        rw [hrest]
        rfl

/-! ## Theorems for claim C4 -/

/-- C4 (counterexample): the good entry plus an entry whose `<id>` element
is present but empty (`id_elem.text is None`).  `id_elem.text.split('/')`
raises an `AttributeError`, which the per-entry
`except (ValidationError, KeyError)` clause does not catch, so the whole
response parse raises instead of skipping the entry — against the claim
that a field-extraction error only excludes that entry without raising. -/
def entryGood : Entry :=
  ⟨some (some "http://arxiv.org/abs/2301.00001v1"),
   some (some "A  Good\n Title"),
   [some (some " Alice ")],
   some (some "An abstract."),
   [(some "text/html", some "http://arxiv.org/abs/2301.00001v1"),
    (some "application/pdf", some "http://arxiv.org/pdf/2301.00001v1")],
   some (some "2023-01-01T00:00:00Z"),
   [some "cs.AI", none, some ""]⟩

/-- An entry whose `<id>` element exists but has no text. -/
def entryEmptyId : Entry :=
  ⟨some none, some (some "Broken Entry"), [], none,
   [(some "application/pdf", some "http://arxiv.org/pdf/x1")], none, []⟩

/-- An entry with no `application/pdf` link. -/
def entryNoPdf : Entry :=
  ⟨some (some "http://arxiv.org/abs/2301.00002v1"), some (some "Other Title"),
   [], none, [(some "text/html", some "http://arxiv.org/abs/2301.00002v1")],
   none, [some "cs.AI"]⟩

/-- C4 counterexample theorem: a feed with one well-formed entry and one
entry whose `<id>` has empty text makes the whole parse raise (the
uncaught `AttributeError`), returning no papers at all. -/
theorem C4_empty_id_text_raises :
    parse_arxiv_response (.wellFormed [entryGood, entryEmptyId]) =
      .error .uncaughtAttributeError := by
  rfl

/-- C4 as amended: provided no entry raises during field extraction (none
of its present `id`/`title`/`summary`/author-`name` elements is empty),
every entry is handled independently: a well-formed document parses to
exactly the per-entry results in document order, an entry without a
valid-`href` `application/pdf` link contributes nothing, and a
structurally invalid document raises `ParseError`. -/
theorem C4_per_entry_isolation (entries : List Entry)
    (hok : ∀ e ∈ entries, parse_paper_entry e ≠ .raises) :
    parse_arxiv_response (.wellFormed entries) =
        .ok (entries.filterMap entryResult) ∧
    (∀ e ∈ entries,
      (∀ h, findPdfUrl e.links = some h → validate_url h = false) →
        entryResult e = none) ∧
    parse_arxiv_response .malformed = .error .parseError := by
  exact ⟨parseEntriesLoop_filterMap entries hok,
    fun e _ hpdf => entryResult_none_of_no_valid_pdf e hpdf, rfl⟩

/-- Witness for C4: a feed holding the good entry and an entry without a
pdf link parses to exactly the one Paper built from the good entry (title
whitespace collapsed, author stripped, empty category terms dropped). -/
theorem C4_per_entry_isolation_witness :
    parse_arxiv_response (.wellFormed [entryGood, entryNoPdf]) =
      .ok [⟨"2301.00001v1", "A Good Title", ["Alice"], "An abstract.",
            "http://arxiv.org/pdf/2301.00001v1", some "2023-01-01T00:00:00Z",
            ["cs.AI"]⟩] := by
  have h := (C4_per_entry_isolation [entryGood, entryNoPdf] (by decide)).1
  rw [h]
  rfl

/-! ## cache.CacheManager (cache.py)

Each cache namespace is one JSON file per key; a namespace is modelled as
an association list from key to the state a reader will find.  Timestamps
are seconds as integers, with the `'1970-01-01'` default of
`data.get('cached_at', '1970-01-01')` at 0.  The payload type is opaque to
the cache layer (it is JSON data). -/

/-- The `cached_at` field as found by a reader: absent from the JSON
object (the epoch default applies), present but unparseable
(`datetime.fromisoformat` raises `ValueError`), or a parsed timestamp. -/
inductive TsField where
  | missing
  | malformed
  | valid (t : Int)
deriving DecidableEq

/-- One cache file: unreadable/corrupt JSON, or a parsed object with an
optional payload field and its `cached_at` field. -/
inductive CacheFile (π : Type) where
  | corrupt
  | entry (payload : Option π) (cached_at : TsField)
deriving DecidableEq

/-- Lookup in a cache namespace. -/
def cacheLookup {π : Type} : List (String × CacheFile π) → String → Option (CacheFile π)
  | [], _ => none
  | (k, v) :: rest, key => if k = key then some v else cacheLookup rest key

/-- `cache_file.unlink()`: remove the key from the namespace. -/
def cacheErase {π : Type} : List (String × CacheFile π) → String → List (String × CacheFile π)
  | [], _ => []
  | (k, v) :: rest, key =>
    if k = key then cacheErase rest key else (k, v) :: cacheErase rest key

/-- Overwriting write of one cache file. -/
def cacheInsert {π : Type} (store : List (String × CacheFile π)) (key : String)
    (v : CacheFile π) : List (String × CacheFile π) :=
  (key, v) :: cacheErase store key

/-- Embedding of `CacheManager.get_search_results` (cache.py 95-127):
returns the value handed back to the caller and the namespace after the
call.  A missing file is a plain miss; corrupt JSON or a malformed
timestamp is caught, the file deleted, and `None` returned; a missing
timestamp defaults to the epoch; an entry older than 1 hour
(`now - cached_at > 3600`) is deleted and `None` returned; otherwise
`data.get('results', [])` is returned. -/
def get_search_results {π : Type} (now : Int) (store : List (String × CacheFile (List π)))
    (key : String) : Option (List π) × List (String × CacheFile (List π)) :=
  match cacheLookup store key with
  | none => (none, store)
  | some .corrupt => (none, cacheErase store key)
  | some (.entry payload ts) =>
    match ts with
    | .malformed => (none, cacheErase store key)
    | .missing =>
      if now - 0 > 3600 then (none, cacheErase store key)
      else (some (payload.getD []), store)
    | .valid t =>
      if now - t > 3600 then (none, cacheErase store key)
      else (some (payload.getD []), store)

/-- Embedding of `CacheManager.save_search_results` (cache.py 129-150):
overwrite the file with `{results, cached_at := now}`. -/
def save_search_results {π : Type} (now : Int) (store : List (String × CacheFile (List π)))
    (key : String) (results : List π) : List (String × CacheFile (List π)) :=
  cacheInsert store key (.entry (some results) (.valid now))

/-- Embedding of `CacheManager.get_paper_info` (cache.py 37-70): as for
search results but with a 7-day TTL (`now - cached_at > 604800`) and
payload field `paper_info` with no default (`data.get('paper_info')`). -/
def get_paper_info {π : Type} (now : Int) (store : List (String × CacheFile π))
    (key : String) : Option π × List (String × CacheFile π) :=
  match cacheLookup store key with
  | none => (none, store)
  | some .corrupt => (none, cacheErase store key)
  | some (.entry payload ts) =>
    match ts with
    | .malformed => (none, cacheErase store key)
    | .missing =>
      if now - 0 > 604800 then (none, cacheErase store key)
      else (payload, store)
    | .valid t =>
      if now - t > 604800 then (none, cacheErase store key)
      else (payload, store)

/-- Embedding of `CacheManager.save_paper_info` (cache.py 72-93). -/
def save_paper_info {π : Type} (now : Int) (store : List (String × CacheFile π))
    (key : String) (info : π) : List (String × CacheFile π) :=
  cacheInsert store key (.entry (some info) (.valid now))

theorem cacheLookup_cacheErase {π : Type} (store : List (String × CacheFile π))
    (key : String) : cacheLookup (cacheErase store key) key = none := by
  induction store with
  | nil => rfl
  | cons kv rest ih =>
    obtain ⟨k, v⟩ := kv
    by_cases hk : k = key
    · simp [cacheErase, hk, ih]
    · simp [cacheErase, cacheLookup, hk, ih]

/-! ## Theorems for claim C5 -/

/-- C5: (round trip) a search-result `put` followed by a `get` within the
1-hour TTL returns exactly the stored payload; an entry whose stored
timestamp is older than the TTL, a corrupt entry, and an entry with a
malformed or (for any realistic clock) missing timestamp all make `get`
return absent and delete the entry from storage; the per-paper namespace
behaves the same with its 7-day TTL. -/
theorem C5_cache_roundtrip_and_selfheal {π : Type}
    (now now2 t : Int) (store : List (String × CacheFile (List π)))
    (pstore : List (String × CacheFile π))
    (key : String) (x : List π) (y : π) (payload : Option (List π)) :
    (now2 - now ≤ 3600 →
      get_search_results now2 (save_search_results now store key x) key =
        (some x, save_search_results now store key x)) ∧
    (cacheLookup store key = some (.entry payload (.valid t)) →
      now - t > 3600 →
      get_search_results now store key = (none, cacheErase store key) ∧
        cacheLookup (get_search_results now store key).2 key = none) ∧
    (cacheLookup store key = some .corrupt →
      get_search_results now store key = (none, cacheErase store key) ∧
        cacheLookup (get_search_results now store key).2 key = none) ∧
    (cacheLookup store key = some (.entry payload .malformed) →
      get_search_results now store key = (none, cacheErase store key) ∧
        cacheLookup (get_search_results now store key).2 key = none) ∧
    (cacheLookup store key = some (.entry payload .missing) →
      now > 3600 →
      get_search_results now store key = (none, cacheErase store key) ∧
        cacheLookup (get_search_results now store key).2 key = none) ∧
    (now2 - now ≤ 604800 →
      get_paper_info now2 (save_paper_info now pstore key y) key =
        (some y, save_paper_info now pstore key y)) ∧
    (cacheLookup pstore key = some (.entry (some y) (.valid t)) →
      now - t > 604800 →
      get_paper_info now pstore key = (none, cacheErase pstore key) ∧
        cacheLookup (get_paper_info now pstore key).2 key = none) := by
  refine ⟨fun httl => ?_, fun hl hexp => ?_, fun hl => ?_, fun hl => ?_,
    fun hl hnow => ?_, fun httl => ?_, fun hl hexp => ?_⟩
  · have hlk : cacheLookup (save_search_results now store key x) key =
        some (.entry (some x) (.valid now)) := by
      simp [save_search_results, cacheInsert, cacheLookup]
    simp [get_search_results, hlk, show ¬ (now2 - now > 3600) by omega]
  · constructor
    · simp [get_search_results, hl, hexp]
    · simp [get_search_results, hl, hexp, cacheLookup_cacheErase]
  · constructor
    · simp [get_search_results, hl]
    · simp [get_search_results, hl, cacheLookup_cacheErase]
  · constructor
    · simp [get_search_results, hl]
    · simp [get_search_results, hl, cacheLookup_cacheErase]
  · constructor
    · simp [get_search_results, hl, hnow]
    · simp [get_search_results, hl, hnow, cacheLookup_cacheErase]
  · have hlk : cacheLookup (save_paper_info now pstore key y) key =
        some (.entry (some y) (.valid now)) := by
      simp [save_paper_info, cacheInsert, cacheLookup]
    simp [get_paper_info, hlk, show ¬ (now2 - now > 604800) by omega]
  · constructor
    · simp [get_paper_info, hl, hexp]
    · simp [get_paper_info, hl, hexp, cacheLookup_cacheErase]

/-- Witness for C5 at a concrete store: a fresh put/get round trip at
times 10 and 20, and an expired valid-timestamp entry at time 4000. -/
theorem C5_cache_roundtrip_and_selfheal_witness :
    get_search_results 20 (save_search_results 10 ([] : List (String × CacheFile (List Nat))) "k" [7]) "k" =
      (some [7], save_search_results 10 [] "k" [7]) ∧
    get_search_results 4000 [("k", CacheFile.entry (some [(7 : Nat)]) (.valid 1))] "k" =
      (none, []) := by
  constructor
  · exact (C5_cache_roundtrip_and_selfheal 10 20 0 [] [] "k" [7] 0 none).1 (by omega)
  · have h := ((C5_cache_roundtrip_and_selfheal 4000 0 1
      [("k", CacheFile.entry (some [(7 : Nat)]) (.valid 1))] [] "k" [] 0
      (some [7])).2.1 (by rfl) (by omega)).1
    rw [h]
    rfl

/-! ## Theorems for claim C6 -/

/-- C6 (counterexample): `"httpZZZ"` is not a valid absolute http(s) URL —
the repository's own `validate_url` rejects it — yet `Paper` construction
succeeds, because `__post_init__` only checks
`self.pdf_url.startswith('http')`.  This refutes the claimed
"fails if and only if … pdf_url is not a valid absolute http(s) URL". -/
theorem C6_invalid_url_accepted :
    validate_url "httpZZZ" = false ∧
    Paper.mkPy "2301.00001" "A Title" (.list ["A"]) "An abstract." "httpZZZ"
        "2023-01-01" (.list ["cs.AI"]) =
      .ok ⟨"2301.00001", "A Title", .list ["A"], "An abstract.", "httpZZZ",
        "2023-01-01", .list ["cs.AI"]⟩ := by
  constructor
  · rfl
  · rfl

/-- C6 as amended: construction fails with a ValidationError if and only
if `id` is empty, or `title` is empty, or `pdf_url` is empty or does not
start with the prefix `http`, or `authors` is not a list, or `categories`
is not a list; otherwise it succeeds and the record's fields equal the
given values. -/
theorem C6_paper_validation (id title : String) (authors : PyVal)
    (abstract pdf_url published : String) (categories : PyVal) :
    (Paper.mkPy id title authors abstract pdf_url published categories =
        .ok ⟨id, title, authors, abstract, pdf_url, published, categories⟩ ↔
      (id ≠ "" ∧ title ≠ "" ∧ pyStartsWith pdf_url "http" = true ∧
        authors.isList = true ∧ categories.isList = true)) ∧
    ((∃ e, Paper.mkPy id title authors abstract pdf_url published categories =
        .error e) ↔
      (id = "" ∨ title = "" ∨ pdf_url = "" ∨ pyStartsWith pdf_url "http" = false ∨
        authors.isList = false ∨ categories.isList = false)) := by
  have hempty : pyStartsWith "" "http" = false := rfl
  unfold Paper.mkPy
  by_cases h1 : id = "" ∨ title = ""
  · have : (id = "" || title = "") = true := by
      rcases h1 with h | h <;> simp [h]
    simp only [this, if_true]
    constructor
    · simp only [reduceCtorEq, false_iff]
      rintro ⟨hid, hti, _⟩
      rcases h1 with h | h
      · exact hid h
      · exact hti h
    · simp only [Except.error.injEq, exists_eq]
      tauto
  · push_neg at h1
    have : (id = "" || title = "") = false := by
      simp [h1.1, h1.2]
    simp only [this, Bool.false_eq_true, if_false]
    by_cases h2 : pdf_url = "" ∨ pyStartsWith pdf_url "http" = false
    · have : (pdf_url = "" || !(pyStartsWith pdf_url "http")) = true := by
        rcases h2 with h | h
        · simp [h]
        · simp [h]
      simp only [this, if_true]
      constructor
      · simp only [reduceCtorEq, false_iff]
        rintro ⟨_, _, hurl, _⟩
        rcases h2 with h | h
        · rw [h] at hurl
          rw [hempty] at hurl
          cases hurl
        · rw [h] at hurl
          cases hurl
      · simp only [Except.error.injEq, exists_eq]
        tauto
    · push_neg at h2
      have hurl : pyStartsWith pdf_url "http" = true := by
        cases hv : pyStartsWith pdf_url "http"
        · exact absurd hv h2.2
        · rfl
      have : (pdf_url = "" || !(pyStartsWith pdf_url "http")) = false := by
        simp [h2.1, hurl]
      simp only [this, Bool.false_eq_true, if_false]
      by_cases h3 : authors.isList = true
      · simp only [h3, Bool.not_true, Bool.false_eq_true, if_false]
        by_cases h4 : categories.isList = true
        · simp only [h4, Bool.not_true, Bool.false_eq_true, if_false]
          constructor
          · simp [h1.1, h1.2, hurl, h3, h4]
          · simp only [reduceCtorEq, exists_false, false_iff]
            push_neg
            exact ⟨h1.1, h1.2, h2.1, by simp [hurl], by simp [h3], by simp [h4]⟩
        · have h4f : categories.isList = false := by
            cases hv : categories.isList
            · rfl
            · exact absurd hv h4
          simp only [h4f, Bool.not_false, if_true]
          constructor
          · simp only [reduceCtorEq, false_iff]
            rintro ⟨_, _, _, _, hcat⟩
            exact hcat
          · simp only [Except.error.injEq, exists_eq]
            tauto
      · have h3f : authors.isList = false := by
          cases hv : authors.isList
          · rfl
          · exact absurd hv h3
        simp only [h3f, Bool.not_false, if_true]
        constructor
        · simp only [reduceCtorEq, false_iff]
          rintro ⟨_, _, _, hau, _⟩
          exact hau
        · simp only [Except.error.injEq, exists_eq]
          tauto

/-- Witness for C6: a well-formed tuple constructs successfully with its
fields kept, and a tuple whose `authors` is a plain string fails. -/
theorem C6_paper_validation_witness :
    Paper.mkPy "2301.00001" "A Title" (.list ["A"]) "x" "http://arxiv.org/a.pdf"
        "2023" (.list []) =
      .ok ⟨"2301.00001", "A Title", .list ["A"], "x", "http://arxiv.org/a.pdf",
        "2023", .list []⟩ ∧
    (∃ e, Paper.mkPy "2301.00001" "A Title" (.str "A") "x" "http://arxiv.org/a.pdf"
        "2023" (.list []) = .error e) := by
  constructor
  · exact (C6_paper_validation "2301.00001" "A Title" (.list ["A"]) "x"
      "http://arxiv.org/a.pdf" "2023" (.list [])).1.mpr
      (by refine ⟨by decide, by decide, by decide, rfl, rfl⟩)
  · exact (C6_paper_validation "2301.00001" "A Title" (.str "A") "x"
      "http://arxiv.org/a.pdf" "2023" (.list [])).2.mpr
      (by right; right; right; right; left; rfl)

/-! ## enhanced_arxiv_api parameter validation (enhanced_arxiv_api.py 194-222) -/

/-- The optional regex group `(v\d+)?` at the end of both arXiv id
patterns: empty, or `v` followed by one or more digits. -/
def checkVersionSuffix : List Char → Bool
  | [] => true
  | 'v' :: ds => !(ds.isEmpty) && ds.all isAsciiDigit
  | _ => false

/-- The old id pattern `^[a-z-]+/\d{7}(v\d+)?` without the trailing
anchor: a nonempty run of lowercase letters or hyphens, a slash, exactly
seven digits, an optional version. -/
def isOldFormatCore (cs : List Char) : Bool :=
  match cs.span (fun c => !(c = '/')) with
  | (_, []) => false
  | (stem, _ :: rest) =>
    !(stem.isEmpty) && stem.all (fun c => ('a' ≤ c && c ≤ 'z') || c = '-') &&
      rest.length ≥ 7 && (rest.take 7).all isAsciiDigit &&
      checkVersionSuffix (rest.drop 7)

/-- The new id pattern `^\d{4}\.\d{4,5}(v\d+)?` without the trailing
anchor: four digits, a dot, four or five digits, an optional version. -/
def isNewFormatCore : List Char → Bool
  | d1 :: d2 :: d3 :: d4 :: '.' :: rest =>
    isAsciiDigit d1 && isAsciiDigit d2 && isAsciiDigit d3 && isAsciiDigit d4 &&
      ((rest.length ≥ 4 && (rest.take 4).all isAsciiDigit &&
          checkVersionSuffix (rest.drop 4)) ||
       (rest.length ≥ 5 && (rest.take 5).all isAsciiDigit &&
          checkVersionSuffix (rest.drop 5)))
  | _ => false

/-- Embedding of `EnhancedArxivAPI._is_valid_arxiv_id`
(enhanced_arxiv_api.py 216-222): either anchored pattern matches, with
Python's `$` also matching just before one trailing newline. -/
def is_valid_arxiv_id (s : String) : Bool :=
  let core := fun cs => isOldFormatCore cs || isNewFormatCore cs
  core s.data ||
    (match s.data.getLast? with
     | some c => c = '\n' && core s.data.dropLast
     | none => false)

/-- Python truthiness of an optional string (`None` and `""` are falsy). -/
def optStrTruthy : Option String → Bool
  | none => false
  | some s => !(s = "")

/-- Python truthiness of an optional list (`None` and `[]` are falsy). -/
def optListTruthy : Option (List String) → Bool
  | none => false
  | some l => !(l.isEmpty)

/-- Embedding of `EnhancedArxivAPI._validate_search_params`
(enhanced_arxiv_api.py 194-214): the first failing check raises a
`ValidationError` whose message is returned here; `none` means the request
passes validation.  The `query` argument enters only through its
truthiness, so it is modelled as optional text. -/
def validate_search_params (query : Option String) (id_list : Option (List String))
    (max_results start : Int) (categories : Option (List String)) : Option String :=
  if !(optStrTruthy query) && !(optListTruthy id_list) && !(optListTruthy categories) then
    some "Either query, id_list, or categories must be provided"
  else if max_results ≤ 0 then
    some ("max_results must be positive: " ++ toString max_results)
  else if start < 0 then
    some ("start must be non-negative: " ++ toString start)
  else
    match id_list with
    | none => none
    | some ids =>
      if ids.isEmpty then none
      else
        match ids.find? (fun i => !(is_valid_arxiv_id i)) with
        | some bad => some ("Invalid arXiv ID format: " ++ bad)
        | none => none

/-- The claim's old-style pattern `archive/NNNNNNN[vN]`, read literally:
exactly seven digits (this coincides with the code's pattern).  Stated
from the specification's wording for comparison with the source. -/
def spec_old_style_id (s : String) : Bool :=
  isOldFormatCore s.data

/-- The claim's new-style pattern `NNNN.NNNNN[vN]`, read literally:
four digits, a dot, exactly five digits, an optional version.  Stated
from the specification's wording for comparison with the source. -/
def spec_new_style_id (s : String) : Bool :=
  match s.data with
  | d1 :: d2 :: d3 :: d4 :: '.' :: rest =>
    isAsciiDigit d1 && isAsciiDigit d2 && isAsciiDigit d3 && isAsciiDigit d4 &&
      rest.length ≥ 5 && (rest.take 5).all isAsciiDigit &&
      checkVersionSuffix (rest.drop 5)
  | _ => false

/-! ## Theorems for claim C7 -/

/-- C7 (counterexample): the 2007-2014-era id `2301.0001` (four digits
after the dot) matches neither pattern named by the claim, yet
`_validate_search_params` accepts it without raising, because the code's
regex is `\d{4}\.\d{4,5}` and allows four digits. -/
theorem C7_four_digit_id_accepted :
    spec_old_style_id "2301.0001" = false ∧
    spec_new_style_id "2301.0001" = false ∧
    validate_search_params none (some ["2301.0001"]) 5 0 none = none := by
  refine ⟨rfl, rfl, rfl⟩

theorem find_none_of_all {l : List String} (p : String → Bool)
    (h : ∀ i ∈ l, p i = false) : l.find? p = none := by
  induction l with
  | nil => rfl
  | cons a rest ih =>
    have ha := h a (List.mem_cons_self a rest)
    rw [List.find?_cons, ha]
    exact ih fun i hi => h i (List.mem_cons_of_mem a hi)

theorem find_some_mem {l : List String} {p : String → Bool} {a : String}
    (h : l.find? p = some a) : a ∈ l ∧ p a = true := by
  induction l with
  | nil => cases h
  | cons b rest ih =>
    rw [List.find?_cons] at h
    cases hb : p b with
    | true =>
      rw [hb] at h
      injection h with h2
      subst h2
      exact ⟨List.mem_cons_self b rest, hb⟩
    | false =>
      rw [hb] at h
      obtain ⟨hm, hp⟩ := ih h
      exact ⟨List.mem_cons_of_mem b hm, hp⟩

/-- C7 as amended: validation raises a ValidationError exactly when the
request provides none of query / id_list / categories (by Python
truthiness), or `max_results <= 0`, or `start < 0`, or some id in the list
fails the code's arXiv id regex — old-style `archive/NNNNNNN[vN]` or
new-style with four OR five digits after the dot, `\d{4}\.\d{4,5}[vN]` —
and in the id case the error message names the first offending id. -/
theorem C7_validate_search_params (query : Option String)
    (id_list : Option (List String)) (max_results start : Int)
    (categories : Option (List String)) :
    (validate_search_params query id_list max_results start categories = none ↔
      ((optStrTruthy query || optListTruthy id_list || optListTruthy categories) = true ∧
        max_results > 0 ∧ start ≥ 0 ∧
        ∀ i ∈ id_list.getD [], is_valid_arxiv_id i = true)) ∧
    (∀ ids bad, id_list = some ids →
      (optStrTruthy query || optListTruthy id_list || optListTruthy categories) = true →
      max_results > 0 → start ≥ 0 →
      ids.find? (fun i => !(is_valid_arxiv_id i)) = some bad →
      validate_search_params query id_list max_results start categories =
        some ("Invalid arXiv ID format: " ++ bad)) := by
  constructor
  · unfold validate_search_params
    by_cases hprov :
        (optStrTruthy query || optListTruthy id_list || optListTruthy categories) = true
    · have hc : (!(optStrTruthy query) && !(optListTruthy id_list) &&
          !(optListTruthy categories)) = false := by
        rcases Bool.or_eq_true_iff.mp hprov with h | h
        · rcases Bool.or_eq_true_iff.mp h with h1 | h1 <;> simp [h1]
        · simp [h]
      rw [hc]
      simp only [Bool.false_eq_true, if_false]
      by_cases hmr : max_results ≤ 0
      · simp only [hmr, if_true]
        constructor
        · intro h; cases h
        · rintro ⟨_, hmr2, _⟩; omega
      · simp only [hmr, if_false]
        by_cases hst : start < 0
        · simp only [hst, if_true]
          constructor
          · intro h; cases h
          · rintro ⟨_, _, hst2, _⟩; omega
        · simp only [hst, if_false]
          cases id_list with
          | none =>
            simp only [Option.getD_none]
            constructor
            · intro _
              exact ⟨hprov, by omega, by omega, by intro i hi; cases hi⟩
            · intro _; trivial
          | some ids =>
            simp only [Option.getD_some]
            by_cases hemp : ids.isEmpty
            · have : ids = [] := by
                cases ids
                · rfl
                · cases hemp
              subst this
              simp only [List.isEmpty_nil, if_true]
              constructor
              · intro _
                exact ⟨hprov, by omega, by omega, by intro i hi; cases hi⟩
              · intro _; trivial
            · have hempf : ids.isEmpty = false := by
                cases hv : ids.isEmpty
                · rfl
                · exact absurd hv hemp
              simp only [hempf, Bool.false_eq_true, if_false]
              cases hfind : ids.find? (fun i => !(is_valid_arxiv_id i)) with
              | some bad =>
                simp only [hfind]
                constructor
                · intro h; cases h
                · rintro ⟨_, _, _, hall⟩
                  obtain ⟨hmem, hp⟩ := find_some_mem hfind
                  rw [hall bad hmem] at hp
                  cases hp
              | none =>
                simp only [hfind]
                constructor
                · intro _
                  refine ⟨hprov, by omega, by omega, ?_⟩
                  intro i hi
                  have hni := List.find?_eq_none.mp hfind i hi
                  cases hv : is_valid_arxiv_id i
                  · exact absurd (by simp [hv]) hni
                  · rfl
                · intro _; trivial
    · have hprovf : (optStrTruthy query || optListTruthy id_list ||
          optListTruthy categories) = false := by
        cases hv : (optStrTruthy query || optListTruthy id_list ||
            optListTruthy categories)
        · rfl
        · exact absurd hv hprov
      have hc : (!(optStrTruthy query) && !(optListTruthy id_list) &&
          !(optListTruthy categories)) = true := by
        rcases Bool.or_eq_false_iff.mp hprovf with ⟨h1, h2⟩
        rcases Bool.or_eq_false_iff.mp h1 with ⟨h3, h4⟩
        simp [h2, h3, h4]
      rw [hc]
      simp only [if_true]
      constructor
      · intro h; cases h
      · rintro ⟨hp, _⟩
        rw [hprovf] at hp
        cases hp
  · intro ids bad hids hprov hmr hst hfind
    subst hids
    unfold validate_search_params
    have hc : (!(optStrTruthy query) && !(optListTruthy (some ids)) &&
        !(optListTruthy categories)) = false := by
      rcases Bool.or_eq_true_iff.mp hprov with h | h
      · rcases Bool.or_eq_true_iff.mp h with h1 | h1 <;> simp [h1]
      · simp [h]
    rw [hc]
    have hemp : ids.isEmpty = false := by
      cases ids with
      | nil => cases hfind
      | cons a r => rfl
    simp only [Bool.false_eq_true, if_false, show ¬ max_results ≤ 0 by omega,
      show ¬ start < 0 by omega, hemp, hfind]

/-- Witness for C7: a request with two well-formed ids (one legacy, one
modern with version) passes validation, and a request whose first id is
malformed is rejected with the message naming that id. -/
theorem C7_validate_search_params_witness :
    validate_search_params none (some ["cs/0112017v1", "2301.00001v2"]) 10 0 none =
      none ∧
    validate_search_params (some "quantum") (some ["9999"]) 10 0 none =
      some "Invalid arXiv ID format: 9999" := by
  constructor
  · exact (C7_validate_search_params none (some ["cs/0112017v1", "2301.00001v2"])
      10 0 none).1.mpr ⟨by decide, by omega, by omega, by decide⟩
  · exact (C7_validate_search_params (some "quantum") (some ["9999"]) 10 0 none).2
      ["9999"] "9999" rfl (by decide) (by omega) (by omega) (by decide)

/-! ## Date-range query building (enhanced_arxiv_api.py 74-90 and
arxiv_downloader.py 86-98) -/

/-- Python `s.replace('-', '')`: remove every hyphen. -/
def stripDashes (s : String) : String :=
  ⟨s.data.filter fun c => !(c = '-')⟩

/-- Embedding of `DateRange.to_query_string` (enhanced_arxiv_api.py
81-90): empty when both bounds are falsy; a truthy bound contributes
`YYYYMMDD` plus `0000` (start) or `2359` (end); a falsy bound contributes
`*`; the clause is `<field>:[<start>+TO+<end>]`. -/
def dateRange_to_query_string (start_date end_date : Option String)
    (field : String) : String :=
  if !(optStrTruthy start_date) && !(optStrTruthy end_date) then ""
  else
    let st := match start_date with
      | some s => if s = "" then "*" else stripDashes s ++ "0000"
      | none => "*"
    let en := match end_date with
      | some s => if s = "" then "*" else stripDashes s ++ "2359"
      | none => "*"
    field ++ ":[" ++ st ++ "+TO+" ++ en ++ "]"

/-- Embedding of the date-filter block of `ArxivDownloader.search_papers`
(arxiv_downloader.py 86-98): the `submittedDate` clause is appended with
`+AND+` only when at least one bound is truthy; the query is otherwise
unchanged. -/
def search_papers_query (query : String) (date_from date_to : Option String) : String :=
  if optStrTruthy date_from || optStrTruthy date_to then
    let date_filter :=
      if optStrTruthy date_from && optStrTruthy date_to then
        "submittedDate:[" ++ stripDashes (date_from.getD "") ++ "0000+TO+" ++
          stripDashes (date_to.getD "") ++ "2359]"
      else if optStrTruthy date_from then
        "submittedDate:[" ++ stripDashes (date_from.getD "") ++ "0000+TO+*]"
      else
        "submittedDate:[*+TO+" ++ stripDashes (date_to.getD "") ++ "2359]"
    query ++ "+AND+" ++ date_filter
  else query

theorem stripDashes_digit_date (y mo d : String)
    (hy : y.data.all isAsciiDigit = true) (hm : mo.data.all isAsciiDigit = true)
    (hd : d.data.all isAsciiDigit = true) :
    stripDashes (y ++ "-" ++ mo ++ "-" ++ d) = y ++ mo ++ d := by
  have hnodash : ∀ (s : String), s.data.all isAsciiDigit = true →
      s.data.filter (fun c => !(c = '-')) = s.data := by
    intro s hs
    apply List.filter_eq_self.mpr
    intro c hc
    have hdig := List.all_eq_true.mp hs c hc
    cases hcc : decide (c = '-') with
    | false => simp
    | true =>
      have : c = '-' := of_decide_eq_true hcc
      subst this
      cases hdig
  have hdash : List.filter (fun c => !(decide (c = '-'))) ['-'] = [] := rfl
  apply String.ext
  show ((y ++ "-" ++ mo ++ "-" ++ d).data.filter fun c => !(c = '-')) =
    (y ++ mo ++ d).data
  simp only [String.data_append]
  rw [List.filter_append, List.filter_append, List.filter_append, List.filter_append]
  rw [hnodash y hy, hnodash mo hm, hnodash d hd]
  show y.data ++ List.filter (fun c => !(decide (c = '-'))) "-".data ++ mo.data ++
    List.filter (fun c => !(decide (c = '-'))) "-".data ++ d.data =
    y.data ++ mo.data ++ d.data
  rw [show ("-" : String).data = ['-'] from rfl, hdash]
  simp

theorem dashed_date_nonempty (y mo d : String) :
    ¬ (y ++ "-" ++ mo ++ "-" ++ d) = "" := by
  intro heq
  have hlen := congrArg String.length heq
  rw [String.length_append, String.length_append, String.length_append] at hlen
  rw [show ("-" : String).length = 1 from rfl,
    show ("" : String).length = 0 from rfl] at hlen
  omega

theorem dashed_date_truthy (y mo d : String) :
    optStrTruthy (some (y ++ "-" ++ mo ++ "-" ++ d)) = true := by
  simp [optStrTruthy, dashed_date_nonempty y mo d]

/-! ## Theorems for claim C8 -/

/-- C8: for YYYY-MM-DD bounds (digit components of widths 4, 2, 2), the
date clause converts a start bound to `YYYYMMDD` followed by `0000`, an
end bound to `YYYYMMDD` followed by `2359`, renders an absent bound as
`*`, emits `<field>:[<start>+TO+<end>]` (`+` being the pre-encoded form
of the space in `[... TO ...]`), and is omitted entirely when neither
bound is given — in both the enhanced `DateRange` and the downloader's
`search_papers`; in particular, with only a start date the upper bound is
the open `*`. -/
theorem C8_date_range_clause (field q : String) (y mo d y2 mo2 d2 : String)
    (hy : y.data.all isAsciiDigit = true ∧ y.length = 4)
    (hm : mo.data.all isAsciiDigit = true ∧ mo.length = 2)
    (hd : d.data.all isAsciiDigit = true ∧ d.length = 2)
    (hy2 : y2.data.all isAsciiDigit = true ∧ y2.length = 4)
    (hm2 : mo2.data.all isAsciiDigit = true ∧ mo2.length = 2)
    (hd2 : d2.data.all isAsciiDigit = true ∧ d2.length = 2) :
    (dateRange_to_query_string (some (y ++ "-" ++ mo ++ "-" ++ d))
        (some (y2 ++ "-" ++ mo2 ++ "-" ++ d2)) field =
      field ++ ":[" ++ ((y ++ mo ++ d) ++ "0000") ++ "+TO+" ++
        ((y2 ++ mo2 ++ d2) ++ "2359") ++ "]") ∧
    (dateRange_to_query_string (some (y ++ "-" ++ mo ++ "-" ++ d)) none field =
      field ++ ":[" ++ ((y ++ mo ++ d) ++ "0000") ++ "+TO+" ++ "*" ++ "]") ∧
    (dateRange_to_query_string none (some (y2 ++ "-" ++ mo2 ++ "-" ++ d2)) field =
      field ++ ":[" ++ "*" ++ "+TO+" ++ ((y2 ++ mo2 ++ d2) ++ "2359") ++ "]") ∧
    (dateRange_to_query_string none none field = "") ∧
    (search_papers_query q (some (y ++ "-" ++ mo ++ "-" ++ d))
        (some (y2 ++ "-" ++ mo2 ++ "-" ++ d2)) =
      q ++ "+AND+" ++ ("submittedDate:[" ++ (y ++ mo ++ d) ++ "0000+TO+" ++
        (y2 ++ mo2 ++ d2) ++ "2359]")) ∧
    (search_papers_query q (some (y ++ "-" ++ mo ++ "-" ++ d)) none =
      q ++ "+AND+" ++ ("submittedDate:[" ++ (y ++ mo ++ d) ++ "0000+TO+*]")) ∧
    (search_papers_query q none (some (y2 ++ "-" ++ mo2 ++ "-" ++ d2)) =
      q ++ "+AND+" ++ ("submittedDate:[*+TO+" ++ (y2 ++ mo2 ++ d2) ++ "2359]")) ∧
    (search_papers_query q none none = q) := by
  have ht1 := dashed_date_truthy y mo d
  have ht2 := dashed_date_truthy y2 mo2 d2
  have hne1 := dashed_date_nonempty y mo d
  have hne2 := dashed_date_nonempty y2 mo2 d2
  have hs1 := stripDashes_digit_date y mo d hy.1 hm.1 hd.1
  have hs2 := stripDashes_digit_date y2 mo2 d2 hy2.1 hm2.1 hd2.1
  refine ⟨?_, ?_, ?_, rfl, ?_, ?_, ?_, rfl⟩
  · simp only [dateRange_to_query_string, ht1, ht2, Bool.not_true, Bool.false_and,
      Bool.false_eq_true, if_false]
    rw [if_neg hne1, if_neg hne2, hs1, hs2]
  · simp only [dateRange_to_query_string, ht1, optStrTruthy, Bool.not_true,
      Bool.false_and, Bool.false_eq_true, if_false]
    rw [if_neg hne1, hs1]
    simp [decide_eq_false hne1]
  · simp only [dateRange_to_query_string, ht2, optStrTruthy, Bool.not_false,
      Bool.and_false, Bool.false_eq_true, if_false, Bool.true_and, Bool.not_true]
    rw [if_neg hne2, hs2]
    simp [decide_eq_false hne2]
  · simp only [search_papers_query, ht1, ht2, Bool.true_or, Bool.true_and,
      if_true, Option.getD_some]
    rw [hs1, hs2]
  · simp only [search_papers_query, ht1, optStrTruthy, Bool.true_or, Bool.true_and,
      Bool.and_false, Bool.false_eq_true, if_false, if_true, Option.getD_some]
    rw [hs1]
    simp [decide_eq_false hne1]
  · simp only [search_papers_query, ht2, optStrTruthy, Bool.or_true, Bool.false_and,
      Bool.and_true, Bool.false_eq_true, if_false, if_true, Option.getD_some]
    rw [hs2]
    simp [decide_eq_false hne2]

/-- Witness for C8 with the concrete range 2023-01-15 .. 2023-06-30 on the
`submittedDate` field. -/
theorem C8_date_range_clause_witness :
    dateRange_to_query_string (some "2023-01-15") none "submittedDate" =
      "submittedDate:[202301150000+TO+*]" ∧
    search_papers_query "cat:cs.AI" (some "2023-01-15") (some "2023-06-30") =
      "cat:cs.AI+AND+submittedDate:[202301150000+TO+202306302359]" := by
  have h := C8_date_range_clause "submittedDate" "cat:cs.AI" "2023" "01" "15"
    "2023" "06" "30"
    ⟨by decide, by decide⟩ ⟨by decide, by decide⟩ ⟨by decide, by decide⟩
    ⟨by decide, by decide⟩ ⟨by decide, by decide⟩ ⟨by decide, by decide⟩
  refine ⟨?_, ?_⟩
  · have h2 := h.2.1
    rw [show ("2023" ++ "-" ++ "01" ++ "-" ++ "15") = "2023-01-15" from rfl] at h2
    rw [h2]
    rfl
  · have h5 := h.2.2.2.2.1
    rw [show ("2023" ++ "-" ++ "01" ++ "-" ++ "15") = "2023-01-15" from rfl,
      show ("2023" ++ "-" ++ "06" ++ "-" ++ "30") = "2023-06-30" from rfl] at h5
    rw [h5]
    rfl

/-! ## plugins.DuplicateCheckPlugin (plugins.py 57-106)

The md5 function itself is left as a parameter `hashFn`; only the shape of
its input string is taken from `_calculate_paper_hash`. -/

/-- The plugin's mutable state: the set `downloaded_papers` of seen ids
and the insertion-ordered dict `paper_hashes` from id to content hash. -/
structure DuplicateCheckState where
  downloaded_papers : List String
  paper_hashes : List (String × String)
deriving DecidableEq

/-- Embedding of `DuplicateCheckPlugin._calculate_paper_hash`: the hash of
`f"{title}_{abstract}_{','.join(authors)}"`. -/
def calculate_paper_hash (hashFn : String → String) (p : Paper) : String :=
  hashFn (p.title ++ "_" ++ p.abstract ++ "_" ++ String.intercalate "," p.authors)

/-- Python dict assignment `m[k] = v` on an insertion-ordered dict. -/
def dictInsert (m : List (String × String)) (k v : String) : List (String × String) :=
  if m.any (fun kv => kv.1 = k) then
    m.map fun kv => if kv.1 = k then (k, v) else kv
  else m ++ [(k, v)]

/-- Embedding of `DuplicateCheckPlugin.pre_download` (plugins.py 86-100):
reject when the id was seen or the content hash is among the recorded
hash values; otherwise record the hash under the paper's id — already at
admission time — and admit. -/
def pre_download (hashFn : String → String) (st : DuplicateCheckState)
    (p : Paper) : Bool × DuplicateCheckState :=
  if st.downloaded_papers.contains p.id then (false, st)
  else
    let h := calculate_paper_hash hashFn p
    if (st.paper_hashes.map Prod.snd).contains h then (false, st)
    else (true, ⟨st.downloaded_papers, dictInsert st.paper_hashes p.id h⟩)

/-- Embedding of `DuplicateCheckPlugin.post_download` (plugins.py
102-106): only on success is the id added to the seen set. -/
def post_download (st : DuplicateCheckState) (p : Paper) (success : Bool) :
    DuplicateCheckState :=
  if success then
    if st.downloaded_papers.contains p.id then st
    else ⟨st.downloaded_papers ++ [p.id], st.paper_hashes⟩
  else st

theorem dictInsert_snd_contains (m : List (String × String)) (k v : String) :
    ((dictInsert m k v).map Prod.snd).contains v = true := by
  unfold dictInsert
  by_cases h : m.any (fun kv => kv.1 = k) = true
  · rw [if_pos h]
    obtain ⟨kv, hmem, hk⟩ := List.any_eq_true.mp h
    have hmem2 : (k, v) ∈ m.map fun kv => if kv.1 = k then (k, v) else kv := by
      refine List.mem_map.mpr ⟨kv, hmem, ?_⟩
      rw [if_pos (of_decide_eq_true hk)]
    have hv : v ∈ (m.map fun kv => if kv.1 = k then (k, v) else kv).map Prod.snd :=
      List.mem_map.mpr ⟨(k, v), hmem2, rfl⟩
    exact List.elem_eq_true_of_mem hv
  · rw [if_neg h]
    have hv : v ∈ (m ++ [(k, v)]).map Prod.snd := by
      refine List.mem_map.mpr ⟨(k, v), ?_, rfl⟩
      exact List.mem_append_right m (List.mem_singleton.mpr rfl)
    exact List.elem_eq_true_of_mem hv

/-! ## Theorems for claim C9 -/

/-- C9 (counterexample): the claim says ids and hashes are recorded only
when the download succeeds, but `pre_download` itself records the content
hash at admission time: admitting `paperA` from the empty state already
stores its hash (here with the hash function taken as the identity on the
hashed string), before any download has happened. -/
theorem C9_hash_recorded_at_admission :
    (pre_download (fun s => s) ⟨[], []⟩ paperA).2.paper_hashes =
      [("2301.00001v1",
        "Attention Is All You Need_An abstract._A. Vaswani")] ∧
    (pre_download (fun s => s) ⟨[], []⟩ paperA).2 ≠ (⟨[], []⟩ : DuplicateCheckState) := by
  constructor
  · rfl
  · decide

/-- C9 as amended: `pre_download` rejects exactly when the id has been
seen or the content hash (from title+abstract+authors) is among the
recorded hash values; on admission it records the hash immediately —
regardless of any later download result — while `post_download` records
the id, and only on success; consequently of two papers with different
ids but identical title, abstract and authors processed sequentially, the
second is rejected. -/
theorem C9_duplicate_filter (hashFn : String → String)
    (st : DuplicateCheckState) (p p1 p2 : Paper)
    (hsame : p1.title = p2.title ∧ p1.abstract = p2.abstract ∧
      p1.authors = p2.authors) :
    ((pre_download hashFn st p).1 = false ↔
      (st.downloaded_papers.contains p.id = true ∨
        (st.paper_hashes.map Prod.snd).contains
          (calculate_paper_hash hashFn p) = true)) ∧
    ((pre_download hashFn st p).1 = true →
      (pre_download hashFn st p).2.paper_hashes =
        dictInsert st.paper_hashes p.id (calculate_paper_hash hashFn p)) ∧
    (post_download st p false = st) ∧
    ((post_download st p true).downloaded_papers.contains p.id = true) ∧
    ((pre_download hashFn st p1).1 = true →
      (pre_download hashFn ((pre_download hashFn st p1).2) p2).1 = false) := by
  refine ⟨?_, ?_, rfl, ?_, ?_⟩
  · unfold pre_download
    by_cases hid : st.downloaded_papers.contains p.id = true
    · rw [if_pos hid]
      exact ⟨fun _ => Or.inl hid, fun _ => rfl⟩
    · rw [if_neg hid]
      by_cases hh : (st.paper_hashes.map Prod.snd).contains
          (calculate_paper_hash hashFn p) = true
      · rw [if_pos hh]
        exact ⟨fun _ => Or.inr hh, fun _ => rfl⟩
      · rw [if_neg hh]
        constructor
        · intro hcon
          exact Bool.noConfusion hcon
        · rintro (hc | hc)
          · exact absurd hc hid
          · exact absurd hc hh
  · intro hadm
    unfold pre_download at hadm ⊢
    by_cases hid : st.downloaded_papers.contains p.id = true
    · rw [if_pos hid] at hadm
      exact Bool.noConfusion hadm
    · rw [if_neg hid] at hadm ⊢
      by_cases hh : (st.paper_hashes.map Prod.snd).contains
          (calculate_paper_hash hashFn p) = true
      · rw [if_pos hh] at hadm
        exact Bool.noConfusion hadm
      · rw [if_neg hh]
  · unfold post_download
    rw [if_pos rfl]
    by_cases hid : st.downloaded_papers.contains p.id = true
    · rw [if_pos hid]
      exact hid
    · rw [if_neg hid]
      exact List.elem_eq_true_of_mem
        (List.mem_append_right _ (List.mem_singleton.mpr rfl))
  · intro hadm1
    have hhash : calculate_paper_hash hashFn p2 = calculate_paper_hash hashFn p1 := by
      unfold calculate_paper_hash
      rw [hsame.1, hsame.2.1, hsame.2.2]
    have hst1 : (pre_download hashFn st p1).2 =
        ⟨st.downloaded_papers,
          dictInsert st.paper_hashes p1.id (calculate_paper_hash hashFn p1)⟩ := by
      unfold pre_download at hadm1 ⊢
      by_cases hid1 : st.downloaded_papers.contains p1.id = true
      · rw [if_pos hid1] at hadm1
        exact Bool.noConfusion hadm1
      · rw [if_neg hid1] at hadm1 ⊢
        by_cases hh1 : (st.paper_hashes.map Prod.snd).contains
            (calculate_paper_hash hashFn p1) = true
        · rw [if_pos hh1] at hadm1
          exact Bool.noConfusion hadm1
        · rw [if_neg hh1]
    rw [hst1]
    unfold pre_download
    by_cases hid2 : st.downloaded_papers.contains p2.id = true
    · rw [if_pos hid2]
    · rw [if_neg hid2, hhash,
        if_pos (dictInsert_snd_contains st.paper_hashes p1.id
          (calculate_paper_hash hashFn p1))]

/-- Witness for C9, the spec's Scenario E: `paperA` and a copy of it with
a different id, run sequentially through the duplicate filter from the
empty state: the first is admitted, the second rejected. -/
theorem C9_duplicate_filter_witness :
    (pre_download (fun s => s) ⟨[], []⟩ paperA).1 = true ∧
    (pre_download (fun s => s) ((pre_download (fun s => s) ⟨[], []⟩ paperA).2)
      { paperA with id := "2301.99999" }).1 = false := by
  refine ⟨rfl, ?_⟩
  exact (C9_duplicate_filter (fun s => s) ⟨[], []⟩ paperA paperA
    { paperA with id := "2301.99999" } ⟨rfl, rfl, rfl⟩).2.2.2.2 rfl
